import Mathlib

/-!
Verification of the CerneyDesigns request-intake pipeline (`src/server.js`).

The submission handler `app.post('/api/submit-request')` and its helpers
(`sanitizeInput`, `sanitizeForPDF`, `sanitizeFilename`, `validateSubmitRequest`,
`readRequests`, `writeRequests`, `generatePDF`, `uploadPDFToSupabase`,
`saveRequestToDatabase`) are embedded shallowly below.  Effectful stages
(file write, PDF render, storage upload, database insert) are modelled by a
`World` record of stage outcomes; the handler is a pure function of the world,
the ledger-file state and the raw submission.  External npm libraries
(`xss`, `validator`/`express-validator` format checks) are collaborators of the
repository, not its code; they are modelled at their interface and each such
definition carries a doc comment saying so.
-/

namespace CerneyDesigns

/-! ## JavaScript string primitives

The handler's string operations (`String.prototype.trim`, `split`,
`toLowerCase`, property tests) are given executable list-based definitions
here so that every theorem's witness can be evaluated by the kernel. -/

/-- The JavaScript WhiteSpace / LineTerminator characters recognized by
`String.prototype.trim`: tab, LF, VT, FF, CR, space, NBSP, LS, PS, BOM. -/
def isJsWhitespace (c : Char) : Bool :=
  c.val = 0x09 || c.val = 0x0A || c.val = 0x0B || c.val = 0x0C ||
    c.val = 0x0D || c.val = 0x20 || c.val = 0xA0 || c.val = 0x2028 ||
    c.val = 0x2029 || c.val = 0xFEFF

/-- `String.prototype.trim`. -/
def jsTrim (s : String) : String :=
  ⟨((s.data.dropWhile isJsWhitespace).reverse.dropWhile isJsWhitespace).reverse⟩

/-- Split a character list at every separator character. -/
def splitData (p : Char → Bool) (cur : List Char) : List Char → List (List Char)
  | [] => [cur.reverse]
  | c :: rest =>
      if p c then cur.reverse :: splitData p [] rest
      else splitData p (c :: cur) rest

/-- `String.prototype.split` on a character class. -/
def jsSplit (s : String) (p : Char → Bool) : List String :=
  (splitData p [] s.data).map (fun l => ⟨l⟩)

/-- ASCII lowercasing, as `String.prototype.toLowerCase` acts on the
addresses this system handles. -/
def jsToLower (s : String) : String :=
  ⟨s.data.map (fun c =>
      if 'A' ≤ c && c ≤ 'Z' then Char.ofNat (c.toNat + 32) else c)⟩

/-! ## Sanitization helpers (`src/server.js` lines 107-122) -/

/-- Character class `[a-zA-Z0-9._-]` of `sanitizeFilename`'s regex. -/
def isFilenameSafeChar (c : Char) : Bool :=
  ('a' ≤ c && c ≤ 'z') || ('A' ≤ c && c ≤ 'Z') || ('0' ≤ c && c ≤ '9') ||
    c = '.' || c = '_' || c = '-'

/-- `sanitizeFilename` (line 119-122): strip every character outside
`[a-zA-Z0-9._-]`, then `substring(0, 255)`. -/
def sanitizeFilename (filename : String) : String :=
  ⟨(filename.data.filter isFilenameSafeChar).take 255⟩

/-- Character class `[\x00-\x08\x0B\x0C\x0E-\x1F\x7F]` removed by
`sanitizeForPDF`'s regex. -/
def isPDFDangerousChar (c : Char) : Bool :=
  c.val ≤ 0x08 || c.val = 0x0B || c.val = 0x0C ||
    (0x0E ≤ c.val && c.val ≤ 0x1F) || c.val = 0x7F

/-- `sanitizeForPDF` (line 113-117): remove the dangerous control characters,
then `substring(0, 10000)`. -/
def sanitizeForPDF (input : String) : String :=
  ⟨((input.data.filter (fun c => !isPDFDangerousChar c)).take 10000)⟩

/-- Default text neutralization of the external `xss` npm library (not code of
this repository), modelled at its interface: outside whitelisted tags the
library's `escapeHtml` replaces `<` by the four characters `&lt;` and `>` by
`&gt;` and leaves every other character unchanged. -/
def xssEscapeData : List Char → List Char
  | [] => []
  | c :: rest =>
      (if c = '<' then ['&', 'l', 't', ';']
       else if c = '>' then ['&', 'g', 't', ';']
       else [c]) ++ xssEscapeData rest

/-- `sanitizeInput` (line 107-111): remove null bytes (`replace(/\0/g, '')`)
then apply the `xss` library. -/
def sanitizeInput (input : String) : String :=
  ⟨xssEscapeData (input.data.filter (fun c => c ≠ Char.ofNat 0))⟩

/-! ## The DesignRequest record (built at lines 503-518) -/

structure DesignRequest where
  id : String
  clientName : String
  email : String
  phoneNumber : String
  projectType : String
  timeline : String
  budget : String
  designDescription : String
  referenceWebsites : String
  colorPreferences : String
  stylePreferences : String
  keyFeatures : String
  status : String
  pdfUrl : Option String
  createdAt : String
deriving DecidableEq, Repr

/-! ## JSON model of the ledger file (`data/requests.json`)

`writeRequests` stores `JSON.stringify(requests)`; `readRequests` parses it
back.  The JSON document is modelled at the abstract-syntax level: an
unparseable file is a distinct `FileState`, and `JSON.stringify`'s rule that
an absent (`undefined`) property such as an unattached `pdfUrl` is omitted
from the object is reflected in `encodeRecord`. -/

inductive Json where
  | str : String → Json
  | arr : List Json → Json
  | obj : List (String × Json) → Json

/-- Property lookup in a JSON object (first binding wins). -/
def lookupField (fields : List (String × Json)) (key : String) : Option Json :=
  match fields with
  | [] => none
  | (k, v) :: rest => if k = key then some v else lookupField rest key

/-- String-valued property lookup. -/
def getStr (fields : List (String × Json)) (key : String) : Option String :=
  match lookupField fields key with
  | some (Json.str s) => some s
  | _ => none

/-- Serialization of one record, property for property in the order the
object literal at lines 503-518 declares them; `pdfUrl` is present exactly
when it was attached (JSON.stringify omits `undefined` properties). -/
def encodeRecord (r : DesignRequest) : Json :=
  Json.obj
    ([("id", Json.str r.id),
      ("clientName", Json.str r.clientName),
      ("email", Json.str r.email),
      ("phoneNumber", Json.str r.phoneNumber),
      ("projectType", Json.str r.projectType),
      ("timeline", Json.str r.timeline),
      ("budget", Json.str r.budget),
      ("designDescription", Json.str r.designDescription),
      ("referenceWebsites", Json.str r.referenceWebsites),
      ("colorPreferences", Json.str r.colorPreferences),
      ("stylePreferences", Json.str r.stylePreferences),
      ("keyFeatures", Json.str r.keyFeatures),
      ("status", Json.str r.status),
      ("createdAt", Json.str r.createdAt)] ++
     (match r.pdfUrl with
      | some u => [("pdfUrl", Json.str u)]
      | none => []))

/-- Parse one record object back into a `DesignRequest`. -/
def decodeRecord (j : Json) : Option DesignRequest :=
  match j with
  | Json.obj fields =>
    match getStr fields "id", getStr fields "clientName", getStr fields "email",
          getStr fields "phoneNumber", getStr fields "projectType",
          getStr fields "timeline", getStr fields "budget",
          getStr fields "designDescription", getStr fields "referenceWebsites",
          getStr fields "colorPreferences", getStr fields "stylePreferences",
          getStr fields "keyFeatures", getStr fields "status",
          getStr fields "createdAt" with
    | some i, some cn, some em, some ph, some pt, some tl, some bu, some dd,
      some rw, some cp, some sp, some kf, some st, some ca =>
        match lookupField fields "pdfUrl" with
        | some (Json.str u) =>
            some ⟨i, cn, em, ph, pt, tl, bu, dd, rw, cp, sp, kf, st, some u, ca⟩
        | none =>
            some ⟨i, cn, em, ph, pt, tl, bu, dd, rw, cp, sp, kf, st, none, ca⟩
        | some _ => none
    | _, _, _, _, _, _, _, _, _, _, _, _, _, _ => none
  | _ => none

def encodeLedger (requests : List DesignRequest) : Json :=
  Json.arr (requests.map encodeRecord)

def decodeRecordList : List Json → Option (List DesignRequest)
  | [] => some []
  | j :: rest =>
      match decodeRecord j, decodeRecordList rest with
      | some r, some rs => some (r :: rs)
      | _, _ => none

def decodeLedger (j : Json) : Option (List DesignRequest) :=
  match j with
  | Json.arr js => decodeRecordList js
  | _ => none

/-- State of the ledger file `data/requests.json`: absent, present but not
readable, present but not valid JSON (the constructor keeps the raw text that
is being ignored), or a parsed JSON document. -/
inductive FileState where
  | missing : FileState
  | unreadable : FileState
  | corrupt : String → FileState
  | parsed : Json → FileState

/-- Whether the file holds a parseable JSON document. -/
def FileState.isParsed : FileState → Bool
  | FileState.parsed _ => true
  | _ => false

/-- `readRequests` (lines 238-245): `JSON.parse` the file, and on any error
(missing file, read error, invalid JSON) return `[]`.  A parsed document is
decoded back into records; documents written by `writeRequests` always decode
(theorem `readRequests_writeRequests`). -/
def readRequests (file : FileState) : List DesignRequest :=
  match file with
  | FileState.parsed j => (decodeLedger j).getD []
  | _ => []

/-- `writeRequests` (lines 248-250): store `JSON.stringify(requests)`. -/
def writeRequests (requests : List DesignRequest) : FileState :=
  FileState.parsed (encodeLedger requests)

theorem decodeRecord_encodeRecord (r : DesignRequest) :
    decodeRecord (encodeRecord r) = some r := by
  cases r with
  | mk i cn em ph pt tl bu dd rw cp sp kf st pu ca => cases pu <;> rfl

theorem decodeLedger_encodeLedger (l : List DesignRequest) :
    decodeLedger (encodeLedger l) = some l := by
  simp only [decodeLedger, encodeLedger]
  induction l with
  | nil => rfl
  | cons r rest ih =>
      simp only [List.map_cons, decodeRecordList, decodeRecord_encodeRecord]
      rw [ih]

/-- The ledger round-trips: reading back a written record list returns it
unchanged, in order. -/
theorem readRequests_writeRequests (l : List DesignRequest) :
    readRequests (writeRequests l) = l := by
  simp only [readRequests, writeRequests, decodeLedger_encodeLedger, Option.getD_some]

/-! ## The validation middleware `validateSubmitRequest` (lines 126-199)

Each `body(field)` chain is one definition returning the list of violation
messages that chain contributes; `express-validator` runs the chains in array
order and `errors.array()` lists the messages in that order.  An absent form
field is modelled as `""` (every `.optional()` rule of this validator also
passes on the empty string).  Format checks delegated to the external
`validator` npm library (`isEmail`, `isURL`, `normalizeEmail`) are modelled at
their interface. -/

structure RawSubmission where
  clientName : String
  email : String
  phoneNumber : String
  projectType : String
  timeline : String
  budget : String
  designDescription : String
  referenceWebsites : String
  colorPreferences : String
  stylePreferences : String
  keyFeatures : String
deriving DecidableEq, Repr

/-- Address-syntax check of the external `validator` library's `isEmail`
(not code of this repository), modelled at its interface: exactly one `@`
separating a non-empty local part from a non-empty domain that contains a
dot, with no spaces. -/
def isEmailModel (s : String) : Bool :=
  match jsSplit s (fun c => c = '@') with
  | [lp, dom] => lp ≠ "" && dom ≠ "" && dom.data.contains '.' && !s.data.contains ' '
  | _ => false

/-- The external `validator` library's `normalizeEmail` sanitizer (not code of
this repository), modelled at its interface as lowercasing the address. -/
def normalizeEmailModel (s : String) : String := jsToLower s

/-- URL-syntax check of the external `validator` library's
`isURL(url, { require_protocol: false })` (not code of this repository),
modelled at its interface: non-empty, no spaces, and containing a dot. -/
def isURLModel (s : String) : Bool :=
  s ≠ "" && !s.data.contains ' ' && s.data.contains '.'

/-- Character class `[\d\s\-\(\)\+\.]` of the phone-number regex
(line 147). -/
def isPhoneChar (c : Char) : Bool :=
  c.isDigit || c.isWhitespace || c = '-' || c = '(' || c = ')' || c = '+' || c = '.'

/-- `body('clientName').trim().isLength({min:1,max:100})` (lines 127-131). -/
def vClientName (s : String) : List String :=
  if 1 ≤ (jsTrim s).data.length ∧ (jsTrim s).data.length ≤ 100 then []
  else ["Name must be between 1 and 100 characters"]

/-- `body('email').trim().isEmail().normalizeEmail().isLength({max:255})`
(lines 132-138); the length bound is checked on the normalized address. -/
def vEmail (s : String) : List String :=
  (if isEmailModel (jsTrim s) then [] else ["Invalid email address"]) ++
    (if (normalizeEmailModel (jsTrim s)).data.length ≤ 255 then [] else ["Email too long"])

/-- `body('phoneNumber').optional().trim().isLength({max:20}).custom(...)`
(lines 139-151); the custom check passes on the empty value and otherwise
requires every character to match the phone character class. -/
def vPhoneNumber (s : String) : List String :=
  (if (jsTrim s).data.length ≤ 20 then [] else ["Phone number too long"]) ++
    (if jsTrim s = "" then []
     else if (jsTrim s).data.all isPhoneChar then []
     else ["Invalid phone number format"])

def projectTypes : List String := ["website", "redesign", "landing", "ecommerce", "other"]

/-- `body('projectType').trim().isIn([...])` (lines 152-155). -/
def vProjectType (s : String) : List String :=
  if projectTypes.contains (jsTrim s) then [] else ["Invalid project type"]

def timelines : List String := ["asap", "1month", "2-3months", "flexible"]

/-- `body('timeline').trim().isIn([...])` (lines 156-159). -/
def vTimeline (s : String) : List String :=
  if timelines.contains (jsTrim s) then [] else ["Invalid timeline selection"]

def budgets : List String := ["200-500", "500-1000", "1000-2500", "2500-5000", "5000+"]

/-- `body('budget').trim().isIn([...])` (lines 160-163). -/
def vBudget (s : String) : List String :=
  if budgets.contains (jsTrim s) then [] else ["Invalid budget selection"]

/-- `body('designDescription').trim().isLength({min:10,max:5000})`
(lines 164-168). -/
def vDesignDescription (s : String) : List String :=
  if 10 ≤ (jsTrim s).data.length ∧ (jsTrim s).data.length ≤ 5000 then []
  else ["Description must be between 10 and 5000 characters"]

/-- The custom check of lines 174-179: split on newlines and commas, trim,
drop empties, and require each entry to be a URL or shorter than 100. -/
def referenceEntriesOk (t : String) : Bool :=
  (((jsSplit t (fun c => c = '\n' || c = ',')).map jsTrim).filter
      (fun u => u ≠ "")).all (fun u => isURLModel u || u.data.length < 100)

/-- `body('referenceWebsites').optional().trim().isLength({max:2000}).custom(...)`
(lines 169-180). -/
def vReferenceWebsites (s : String) : List String :=
  (if (jsTrim s).data.length ≤ 2000 then [] else ["Reference websites too long"]) ++
    (if jsTrim s = "" then []
     else if referenceEntriesOk (jsTrim s) then []
     else ["Invalid URL in reference websites"])

/-- `body('colorPreferences').optional().trim().isLength({max:200})`
(lines 181-186). -/
def vColorPreferences (s : String) : List String :=
  if (jsTrim s).data.length ≤ 200 then [] else ["Color preferences too long"]

def styleVocabulary : List String :=
  ["modern", "minimalist", "bold", "professional", "creative", "elegant",
   "playful", "rustic", "industrial", "vintage", "luxury", "tech",
   "corporate", "artistic", "clean", ""]

/-- `body('stylePreferences').optional().trim().isIn([...])` (lines 187-192). -/
def vStylePreferences (s : String) : List String :=
  if styleVocabulary.contains (jsTrim s) then [] else ["Invalid style preference selection"]

/-- `body('keyFeatures').optional().trim().isLength({max:2000})`
(lines 193-198). -/
def vKeyFeatures (s : String) : List String :=
  if (jsTrim s).data.length ≤ 2000 then [] else ["Key features too long"]

/-- All violation messages of `validateSubmitRequest`, in chain order. -/
def validateSubmitRequest (raw : RawSubmission) : List String :=
  vClientName raw.clientName ++ vEmail raw.email ++ vPhoneNumber raw.phoneNumber ++
    vProjectType raw.projectType ++ vTimeline raw.timeline ++ vBudget raw.budget ++
    vDesignDescription raw.designDescription ++
    vReferenceWebsites raw.referenceWebsites ++
    vColorPreferences raw.colorPreferences ++
    vStylePreferences raw.stylePreferences ++ vKeyFeatures raw.keyFeatures

/-- The violation messages of every chain except `designDescription`'s: the
"other fields" of the boundary test. -/
def validateOtherFields (raw : RawSubmission) : List String :=
  vClientName raw.clientName ++ vEmail raw.email ++ vPhoneNumber raw.phoneNumber ++
    vProjectType raw.projectType ++ vTimeline raw.timeline ++ vBudget raw.budget ++
    vReferenceWebsites raw.referenceWebsites ++
    vColorPreferences raw.colorPreferences ++
    vStylePreferences raw.stylePreferences ++ vKeyFeatures raw.keyFeatures

/-- The escape sanitizer of `express-validator`/`validator` (external
library, not code of this repository), modelled at its interface: each of
the characters `& " ' < > / \ `` is replaced by its HTML entity. -/
def escapeValidatorData : List Char → List Char
  | [] => []
  | c :: rest =>
      (if c = '&' then "&amp;".data
       else if c = '"' then "&quot;".data
       else if c = '\'' then "&#x27;".data
       else if c = '<' then "&lt;".data
       else if c = '>' then "&gt;".data
       else if c = '/' then "&#x2F;".data
       else if c = '\\' then "&#x5C;".data
       else if c = '`' then "&#96;".data
       else [c]) ++ escapeValidatorData rest

def escapeValidator (s : String) : String := ⟨escapeValidatorData s.data⟩

/-- The sanitizers of the validation chains mutate `req.body` before the
handler reads it: every chain trims its field, `.escape()` chains escape it,
and the email chain normalizes the address. -/
def applyValidatorSanitizers (raw : RawSubmission) : RawSubmission :=
  { clientName := escapeValidator (jsTrim raw.clientName),
    email := normalizeEmailModel (jsTrim raw.email),
    phoneNumber := escapeValidator (jsTrim raw.phoneNumber),
    projectType := jsTrim raw.projectType,
    timeline := jsTrim raw.timeline,
    budget := jsTrim raw.budget,
    designDescription := escapeValidator (jsTrim raw.designDescription),
    referenceWebsites := jsTrim raw.referenceWebsites,
    colorPreferences := escapeValidator (jsTrim raw.colorPreferences),
    stylePreferences := escapeValidator (jsTrim raw.stylePreferences),
    keyFeatures := escapeValidator (jsTrim raw.keyFeatures) }

/-! ## The intake orchestrator `app.post('/api/submit-request')` (lines 476-583)

The handler runs its stages synchronously.  A `World` fixes each effectful
outcome: the two `Date.now()` readings (line 504 and line 537),
`new Date().toISOString()`, whether `writeRequests` succeeds, whether
`generatePDF` succeeds, whether the Supabase client is configured, whether
`uploadPDFToSupabase` succeeds and whether `saveRequestToDatabase`
succeeds; plus the configured storage URL and bucket. -/

structure World where
  now : Nat
  now2 : Nat
  nowIso : String
  writeOk : Bool
  renderOk : Bool
  supabaseConfigured : Bool
  uploadOk : Bool
  mirrorOk : Bool
  supabaseUrl : String
  bucket : String
deriving Repr

/-- The record built at lines 503-518 from the validator-sanitized body:
`id` is `Date.now().toString()`, each field is `sanitizeInput(v?.trim() ||
'')`, `status` is `'pending_review'`, `createdAt` the ISO timestamp, and no
`pdfUrl` property exists yet. -/
def buildRequest (w : World) (b : RawSubmission) : DesignRequest :=
  { id := toString w.now,
    clientName := sanitizeInput (jsTrim b.clientName),
    email := sanitizeInput (jsTrim b.email),
    phoneNumber := sanitizeInput (jsTrim b.phoneNumber),
    projectType := sanitizeInput (jsTrim b.projectType),
    timeline := sanitizeInput (jsTrim b.timeline),
    budget := sanitizeInput (jsTrim b.budget),
    designDescription := sanitizeInput (jsTrim b.designDescription),
    referenceWebsites := sanitizeInput (jsTrim b.referenceWebsites),
    colorPreferences := sanitizeInput (jsTrim b.colorPreferences),
    stylePreferences := sanitizeInput (jsTrim b.stylePreferences),
    keyFeatures := sanitizeInput (jsTrim b.keyFeatures),
    status := "pending_review",
    pdfUrl := none,
    createdAt := w.nowIso }

/-- The public URL computed at line 544 from the unsanitized
`design-request-${request.id}-${Date.now()}.pdf` file name. -/
def publicPdfUrl (w : World) (request : DesignRequest) : String :=
  w.supabaseUrl ++ "/storage/v1/object/public/" ++ w.bucket ++
    "/design-request-" ++ request.id ++ "-" ++ toString w.now2 ++ ".pdf"

/-- Lines 533-556: render the PDF, and if the Supabase client is configured
upload it; only when rendering and upload both succeed is `request.pdfUrl`
assigned (line 545).  Render and upload errors are caught and absorbed. -/
def pdfStage (w : World) (request : DesignRequest) : DesignRequest :=
  if w.renderOk then
    if w.supabaseConfigured then
      if w.uploadOk then { request with pdfUrl := some (publicPdfUrl w request) }
      else request
    else request
  else request

/-- One row of the external `design_requests` table (lines 444-460):
the flattened record, with empty optional fields stored as SQL NULL. -/
structure MirrorRow where
  id : String
  client_name : String
  email : String
  phone_number : Option String
  project_type : String
  timeline : String
  budget : String
  design_description : String
  reference_websites : Option String
  color_preferences : Option String
  style_preferences : Option String
  key_features : Option String
  status : String
  pdf_url : Option String
  created_at : String
deriving DecidableEq, Repr

/-- JavaScript `v || null` on a string: `null` exactly when empty. -/
def orNull (s : String) : Option String :=
  if s = "" then none else some s

/-- `saveRequestToDatabase`'s insert payload (lines 442-460). -/
def toMirrorRow (r : DesignRequest) : MirrorRow :=
  { id := r.id,
    client_name := r.clientName,
    email := r.email,
    phone_number := orNull r.phoneNumber,
    project_type := r.projectType,
    timeline := r.timeline,
    budget := r.budget,
    design_description := r.designDescription,
    reference_websites := orNull r.referenceWebsites,
    color_preferences := orNull r.colorPreferences,
    style_preferences := orNull r.stylePreferences,
    key_features := orNull r.keyFeatures,
    status := r.status,
    pdf_url := match r.pdfUrl with
      | some u => orNull u
      | none => none,
    created_at := r.createdAt }

/-- Lines 558-567: if the Supabase client is configured, attempt the mirror
insert with the current (possibly `pdfUrl`-carrying) record; a failure is
caught and absorbed. -/
def mirrorStage (w : World) (request : DesignRequest) : Option MirrorRow :=
  if w.supabaseConfigured then
    if w.mirrorOk then some (toMirrorRow request) else none
  else none

/-- The caller-visible response of the handler: the 400 validation response
with its message list (lines 481-485), the success JSON (lines 570-573), or
the generic 500 failure (lines 579-581). -/
inductive SubmitResponse where
  | validationFailed : List String → SubmitResponse
  | success : SubmitResponse
  | serverError : SubmitResponse
deriving DecidableEq, Repr

/-- Everything observable about one handled submission: the response, the
ledger-file state afterwards, the in-memory record at response time, which
downstream stages were attempted, and the row inserted into the mirror. -/
structure SubmitResult where
  response : SubmitResponse
  file : FileState
  finalRequest : Option DesignRequest
  renderAttempted : Bool
  uploadAttempted : Bool
  mirrorAttempted : Bool
  mirrorRow : Option MirrorRow

/-- The submit handler (lines 476-583).  Validation failure returns 400 with
the full message list and performs no side effect.  Otherwise the record is
built, the ledger is read, the record appended and the ledger written; a
write failure throws to the outer catch, which answers the generic 500 with
nothing downstream attempted.  After a successful write, `generatePDF` is
attempted, on its success the upload is attempted when Supabase is
configured, the mirror insert is attempted when Supabase is configured, and
the response is the success JSON regardless of those stages' outcomes. -/
def handleSubmit (w : World) (file : FileState) (raw : RawSubmission) : SubmitResult :=
  let errors := validateSubmitRequest raw
  if errors.isEmpty then
    let request := buildRequest w (applyValidatorSanitizers raw)
    let requests := readRequests file ++ [request]
    if w.writeOk then
      let finalRequest := pdfStage w request
      { response := SubmitResponse.success,
        file := writeRequests requests,
        finalRequest := some finalRequest,
        renderAttempted := true,
        uploadAttempted := w.renderOk && w.supabaseConfigured,
        mirrorAttempted := w.supabaseConfigured,
        mirrorRow := mirrorStage w finalRequest }
    else
      { response := SubmitResponse.serverError,
        file := file,
        finalRequest := none,
        renderAttempted := false,
        uploadAttempted := false,
        mirrorAttempted := false,
        mirrorRow := none }
  else
    { response := SubmitResponse.validationFailed errors,
      file := file,
      finalRequest := none,
      renderAttempted := false,
      uploadAttempted := false,
      mirrorAttempted := false,
      mirrorRow := none }

/-! ## The document renderer `generatePDF` (lines 253-400)

The renderer emits a fixed sequence of `doc.text(...)` calls; the document is
modelled as the list of emitted text strings in emission order.  Every field
passes through `sanitizeForPDF` first (lines 267-278); JavaScript truthiness
makes each conditional block run exactly when its sanitized string is
non-empty.  The locale rendering of `createdAt` (line 288) is the
environment's `toLocaleString`, taken as a parameter. -/

/-- Lines before the Design Preferences block: header, client information
(phone line only when non-empty), project details and project
description. -/
def pdfHeadLines (locale : String → String) (request : DesignRequest) : List String :=
  ["Design Request Submission",
   "Submitted: " ++ locale request.createdAt,
   "Client Information",
   "Name: " ++ sanitizeForPDF request.clientName,
   "Email: " ++ sanitizeForPDF request.email] ++
    (if sanitizeForPDF request.phoneNumber ≠ "" then
       ["Phone: " ++ sanitizeForPDF request.phoneNumber]
     else []) ++
    ["Project Details",
     "Project Type: " ++ sanitizeForPDF request.projectType,
     "Timeline: " ++ sanitizeForPDF request.timeline,
     "Budget Range: $" ++ sanitizeForPDF request.budget,
     "Project Description",
     sanitizeForPDF request.designDescription]

/-- The Design Preferences block (lines 339-356): emitted only when a
sanitized color or style preference is non-empty, with each line guarded by
its own emptiness test. -/
def pdfPrefsLines (safeColorPrefs safeStylePrefs : String) : List String :=
  if safeColorPrefs ≠ "" || safeStylePrefs ≠ "" then
    ["Design Preferences"] ++
      (if safeColorPrefs ≠ "" then ["Color Preferences: " ++ safeColorPrefs] else []) ++
      (if safeStylePrefs ≠ "" then ["Style Preferences: " ++ safeStylePrefs] else [])
  else []

/-- Lines after the Design Preferences block: key features and reference
websites (each section only when non-empty) and the footer (lines
358-396). -/
def pdfTailLines (request : DesignRequest) : List String :=
  (if sanitizeForPDF request.keyFeatures ≠ "" then
     ["Key Features Required", sanitizeForPDF request.keyFeatures]
   else []) ++
    (if sanitizeForPDF request.referenceWebsites ≠ "" then
       ["Reference Websites", sanitizeForPDF request.referenceWebsites]
     else []) ++
    ["Request ID: " ++ sanitizeForPDF request.id]

/-- The full emitted text sequence of `generatePDF`. -/
def generatePDFLines (locale : String → String) (request : DesignRequest) : List String :=
  pdfHeadLines locale request ++
    pdfPrefsLines (sanitizeForPDF request.colorPreferences)
      (sanitizeForPDF request.stylePreferences) ++
    pdfTailLines request

/-- The storage key used by `uploadPDFToSupabase` (line 409): the sanitized
suggested file name. -/
def uploadPDFKey (fileName : String) : String :=
  sanitizeFilename fileName

/-- Whether a character sequence contains a path-traversal sequence
(`../` or `..\`). -/
def containsTraversal : List Char → Bool
  | '.' :: '.' :: '/' :: _ => true
  | '.' :: '.' :: '\\' :: _ => true
  | _ :: rest => containsTraversal rest
  | [] => false

/-! ## General lemmas about the sanitizers -/

theorem filter_take_filter (p : Char → Bool) (n : Nat) (l : List Char) :
    ((l.filter p).take n).filter p = (l.filter p).take n := by
  rw [List.filter_eq_self]
  intro a ha
  exact (List.mem_filter.mp (List.mem_of_mem_take ha)).2

theorem xssEscapeData_no_angle :
    ∀ (l : List Char), ∀ c ∈ xssEscapeData l, c ≠ '<' ∧ c ≠ '>' := by
  intro l
  induction l with
  | nil => intro c hc; cases hc
  | cons a rest ih =>
      intro c hc
      unfold xssEscapeData at hc
      rcases List.mem_append.mp hc with h | h
      · split at h
        · simp only [List.mem_cons, List.not_mem_nil, or_false] at h
          rcases h with rfl | rfl | rfl | rfl <;> exact ⟨by decide, by decide⟩
        · split at h
          · simp only [List.mem_cons, List.not_mem_nil, or_false] at h
            rcases h with rfl | rfl | rfl | rfl <;> exact ⟨by decide, by decide⟩
          · simp only [List.mem_cons, List.not_mem_nil, or_false] at h
            subst h
            constructor <;> intro hcc <;> simp_all
      · exact ih c h

theorem xssEscapeData_no_nul (l : List Char)
    (h : ∀ c ∈ l, ¬c = Char.ofNat 0) :
    ∀ c ∈ xssEscapeData l, ¬c = Char.ofNat 0 := by
  induction l with
  | nil => intro c hc; cases hc
  | cons a rest ih =>
      intro c hc
      unfold xssEscapeData at hc
      rcases List.mem_append.mp hc with hm | hm
      · split at hm
        · simp only [List.mem_cons, List.not_mem_nil, or_false] at hm
          rcases hm with rfl | rfl | rfl | rfl <;> decide
        · split at hm
          · simp only [List.mem_cons, List.not_mem_nil, or_false] at hm
            rcases hm with rfl | rfl | rfl | rfl <;> decide
          · simp only [List.mem_cons, List.not_mem_nil, or_false] at hm
            subst hm
            exact h c (List.mem_cons_self _ _)
      · exact ih (fun d hd => h d (List.mem_cons_of_mem _ hd)) c hm

theorem xssEscapeData_eq_self (l : List Char)
    (h : ∀ c ∈ l, c ≠ '<' ∧ c ≠ '>') : xssEscapeData l = l := by
  induction l with
  | nil => rfl
  | cons a rest ih =>
      unfold xssEscapeData
      obtain ⟨h1, h2⟩ := h a (List.mem_cons_self _ _)
      rw [if_neg h1, if_neg h2, ih (fun d hd => h d (List.mem_cons_of_mem _ hd))]
      rfl

/-! ## C9 — idempotence of the three sanitizers -/

/-- C9: sanitizing an already-sanitized string yields the same string:
`sanitizeInput`, `sanitizeForPDF` and `sanitizeFilename` are each
idempotent, so there is no double-escaping drift. -/
theorem sanitization_idempotent (s : String) :
    sanitizeInput (sanitizeInput s) = sanitizeInput s ∧
    sanitizeForPDF (sanitizeForPDF s) = sanitizeForPDF s ∧
    sanitizeFilename (sanitizeFilename s) = sanitizeFilename s := by
  refine ⟨?_, ?_, ?_⟩
  · unfold sanitizeInput
    congr 1
    have hnul : ∀ c ∈ xssEscapeData (s.data.filter (fun c => c ≠ Char.ofNat 0)),
        ¬c = Char.ofNat 0 := by
      apply xssEscapeData_no_nul
      intro c hc
      simpa using (List.mem_filter.mp hc).2
    rw [List.filter_eq_self.mpr (fun a ha => by simpa using hnul a ha)]
    exact xssEscapeData_eq_self _ (xssEscapeData_no_angle _)
  · unfold sanitizeForPDF
    congr 1
    rw [filter_take_filter, List.take_take, Nat.min_self]
  · unfold sanitizeFilename
    congr 1
    rw [filter_take_filter, List.take_take, Nat.min_self]

/-! ## C4 — filename sanitization -/

/-- C4: `sanitizeFilename` returns only alphanumerics, dots, underscores and
hyphens, capped at 255 characters; and the storage key computed by
`uploadPDFToSupabase` for the suggested name `"../../etc/passwd.pdf"`
contains no path separator and no traversal sequence. -/
theorem sanitizeFilename_safe (s : String) :
    (∀ c ∈ (sanitizeFilename s).data, isFilenameSafeChar c = true) ∧
    (sanitizeFilename s).data.length ≤ 255 ∧
    '/' ∉ (uploadPDFKey "../../etc/passwd.pdf").data ∧
    '\\' ∉ (uploadPDFKey "../../etc/passwd.pdf").data ∧
    containsTraversal (uploadPDFKey "../../etc/passwd.pdf").data = false := by
  refine ⟨?_, ?_, by decide, by decide, by decide⟩
  · intro c hc
    exact (List.mem_filter.mp (List.mem_of_mem_take hc)).2
  · have hdata : (sanitizeFilename s).data = (s.data.filter isFilenameSafeChar).take 255 := rfl
    rw [hdata, List.length_take]
    exact Nat.min_le_left _ _

/-- Evaluation of C4 at the traversal input itself: `'.'` is a kept character
of the sanitized key, the key is within the length cap, and it contains no
traversal sequence. -/
theorem sanitizeFilename_safe_witness :
    isFilenameSafeChar '.' = true ∧
    (sanitizeFilename "../../etc/passwd.pdf").data.length ≤ 255 ∧
    containsTraversal (uploadPDFKey "../../etc/passwd.pdf").data = false :=
  ⟨(sanitizeFilename_safe "../../etc/passwd.pdf").1 '.' (by decide),
   (sanitizeFilename_safe "../../etc/passwd.pdf").2.1,
   (sanitizeFilename_safe "../../etc/passwd.pdf").2.2.2.2⟩

/-! ## Concrete fixtures shared by the witnesses and counterexamples -/

/-- A submission that passes every validation rule. -/
def sampleSubmission : RawSubmission :=
  { clientName := "Alice Smith",
    email := "alice@example.com",
    phoneNumber := "",
    projectType := "website",
    timeline := "asap",
    budget := "200-500",
    designDescription := "A nice simple website please.",
    referenceWebsites := "",
    colorPreferences := "",
    stylePreferences := "",
    keyFeatures := "" }

/-- The same submission from a different client. -/
def sampleSubmissionB : RawSubmission :=
  { sampleSubmission with clientName := "Bob Jones" }

/-- A run in which every effectful stage succeeds. -/
def sampleWorld : World :=
  { now := 1700000000000,
    now2 := 1700000000123,
    nowIso := "2023-11-14T22:13:20.000Z",
    writeOk := true,
    renderOk := true,
    supabaseConfigured := true,
    uploadOk := true,
    mirrorOk := true,
    supabaseUrl := "https://x.supabase.co",
    bucket := "design-requests" }

/-- A run in which the ledger write succeeds but rendering, upload and the
mirror insert all fail. -/
def failingStagesWorld : World :=
  { sampleWorld with renderOk := false, uploadOk := false, mirrorOk := false }

/-! ## Structural lemmas about the submit handler -/

/-- After passing validation and a successful ledger write, the handler's
result componentwise. -/
theorem handleSubmit_ok (w : World) (file : FileState) (raw : RawSubmission)
    (hv : validateSubmitRequest raw = []) (hw : w.writeOk = true) :
    handleSubmit w file raw =
      { response := SubmitResponse.success,
        file := writeRequests
          (readRequests file ++ [buildRequest w (applyValidatorSanitizers raw)]),
        finalRequest := some (pdfStage w (buildRequest w (applyValidatorSanitizers raw))),
        renderAttempted := true,
        uploadAttempted := w.renderOk && w.supabaseConfigured,
        mirrorAttempted := w.supabaseConfigured,
        mirrorRow := mirrorStage w (pdfStage w (buildRequest w (applyValidatorSanitizers raw))) } := by
  unfold handleSubmit
  rw [hv]
  simp [hw]

/-- After passing validation, a failed ledger write reaches the outer catch:
generic 500 response, the file untouched, nothing downstream attempted. -/
theorem handleSubmit_writeFail (w : World) (file : FileState) (raw : RawSubmission)
    (hv : validateSubmitRequest raw = []) (hw : w.writeOk = false) :
    handleSubmit w file raw =
      { response := SubmitResponse.serverError,
        file := file,
        finalRequest := none,
        renderAttempted := false,
        uploadAttempted := false,
        mirrorAttempted := false,
        mirrorRow := none } := by
  unfold handleSubmit
  rw [hv]
  simp [hw]

/-- Removing the `pdfUrl` attachment undoes everything `pdfStage` did. -/
theorem pdfStage_erase (w : World) (r : DesignRequest) :
    { pdfStage w r with pdfUrl := none } = { r with pdfUrl := none } := by
  unfold pdfStage
  split
  · split
    · split <;> rfl
    · rfl
  · rfl

/-- A record whose `pdfUrl` is already absent is unchanged by erasing it. -/
theorem erase_pdfUrl_eq_self (r : DesignRequest) (h : r.pdfUrl = none) :
    { r with pdfUrl := none } = r := by
  cases r
  simp_all

/-- `pdfStage` attaches a `pdfUrl` exactly when rendering succeeds, the
storage client is configured and the upload succeeds. -/
theorem pdfStage_isSome (w : World) (r : DesignRequest) (h : r.pdfUrl = none) :
    (pdfStage w r).pdfUrl.isSome = (w.renderOk && w.supabaseConfigured && w.uploadOk) := by
  unfold pdfStage
  cases hr : w.renderOk <;> cases hc : w.supabaseConfigured <;>
    cases hu : w.uploadOk <;> simp [h, hr, hc, hu]

set_option maxRecDepth 8000

/-! ## C1 — record lifecycle and the `pdfUrl` attachment -/

/-- C1 as frozen is false on the code: in a run where rendering and
publishing both succeed, the `pdfUrl` is attached to the in-memory record,
yet the record stored in the local ledger — written before the rendering
stage — has no `pdfUrl`. -/
theorem ledgerRecord_lacks_pdfUrl_counterexample :
    sampleWorld.renderOk = true ∧ sampleWorld.supabaseConfigured = true ∧
    sampleWorld.uploadOk = true ∧
    ((handleSubmit sampleWorld FileState.missing sampleSubmission).finalRequest.bind
        DesignRequest.pdfUrl).isSome = true ∧
    (readRequests (handleSubmit sampleWorld FileState.missing sampleSubmission).file).map
        DesignRequest.pdfUrl = [none] := by
  decide

/-- C1 amended: for every submission that passes validation and whose ledger
write succeeds, the record is created once with no `pdfUrl` and appended once
to the ledger; the in-memory record is mutated only in its `pdfUrl` field,
which is attached exactly when rendering and publishing both succeed — the
ledger copy, written before rendering, never carries the `pdfUrl`. -/
theorem submit_lifecycle_amended (w : World) (file : FileState) (raw : RawSubmission)
    (hv : validateSubmitRequest raw = []) (hw : w.writeOk = true) :
    readRequests (handleSubmit w file raw).file =
      readRequests file ++ [buildRequest w (applyValidatorSanitizers raw)] ∧
    (buildRequest w (applyValidatorSanitizers raw)).pdfUrl = none ∧
    (handleSubmit w file raw).finalRequest.map (fun r => { r with pdfUrl := none }) =
      some (buildRequest w (applyValidatorSanitizers raw)) ∧
    (handleSubmit w file raw).finalRequest.map (fun r => r.pdfUrl.isSome) =
      some (w.renderOk && w.supabaseConfigured && w.uploadOk) := by
  rw [handleSubmit_ok w file raw hv hw]
  refine ⟨readRequests_writeRequests _, rfl, ?_, ?_⟩
  · have hmap : Option.map (fun r : DesignRequest => { r with pdfUrl := none })
        (some (pdfStage w (buildRequest w (applyValidatorSanitizers raw)))) =
        some { pdfStage w (buildRequest w (applyValidatorSanitizers raw)) with
                 pdfUrl := none } := rfl
    rw [hmap, pdfStage_erase,
      erase_pdfUrl_eq_self (buildRequest w (applyValidatorSanitizers raw)) rfl]
  · have hmap : Option.map (fun r : DesignRequest => r.pdfUrl.isSome)
        (some (pdfStage w (buildRequest w (applyValidatorSanitizers raw)))) =
        some (pdfStage w (buildRequest w (applyValidatorSanitizers raw))).pdfUrl.isSome := rfl
    rw [hmap, pdfStage_isSome w (buildRequest w (applyValidatorSanitizers raw)) rfl]

/-- C1 amended, evaluated on an all-stages-succeed run. -/
theorem submit_lifecycle_amended_witness :
    readRequests (handleSubmit sampleWorld FileState.missing sampleSubmission).file =
      readRequests FileState.missing ++
        [buildRequest sampleWorld (applyValidatorSanitizers sampleSubmission)] ∧
    (buildRequest sampleWorld (applyValidatorSanitizers sampleSubmission)).pdfUrl = none ∧
    (handleSubmit sampleWorld FileState.missing sampleSubmission).finalRequest.map
        (fun r => { r with pdfUrl := none }) =
      some (buildRequest sampleWorld (applyValidatorSanitizers sampleSubmission)) ∧
    (handleSubmit sampleWorld FileState.missing sampleSubmission).finalRequest.map
        (fun r => r.pdfUrl.isSome) =
      some (sampleWorld.renderOk && sampleWorld.supabaseConfigured && sampleWorld.uploadOk) :=
  submit_lifecycle_amended sampleWorld FileState.missing sampleSubmission (by decide) rfl

/-! ## C2 — downstream stage failures never change the caller's outcome -/

/-- C2: once validation passes and the ledger write succeeds, the handler
responds with success whatever the render, upload and mirror outcomes are,
and the caller-visible response equals the one of a run where every
downstream stage succeeds: no stage error is surfaced. -/
theorem submit_success_despite_stage_failures (w : World) (file : FileState)
    (raw : RawSubmission) (hv : validateSubmitRequest raw = [])
    (hw : w.writeOk = true) :
    (handleSubmit w file raw).response = SubmitResponse.success ∧
    (handleSubmit w file raw).response =
      (handleSubmit { w with renderOk := true, uploadOk := true, mirrorOk := true }
        file raw).response := by
  rw [handleSubmit_ok w file raw hv hw,
    handleSubmit_ok { w with renderOk := true, uploadOk := true, mirrorOk := true }
      file raw hv hw]
  exact ⟨rfl, rfl⟩

/-- C2 evaluated on a run where rendering, upload and mirror insert all
fail: the response is still success. -/
theorem submit_success_despite_stage_failures_witness :
    (handleSubmit failingStagesWorld FileState.missing sampleSubmission).response =
      SubmitResponse.success ∧
    (handleSubmit failingStagesWorld FileState.missing sampleSubmission).response =
      (handleSubmit
        { failingStagesWorld with renderOk := true, uploadOk := true, mirrorOk := true }
        FileState.missing sampleSubmission).response :=
  submit_success_despite_stage_failures failingStagesWorld FileState.missing
    sampleSubmission (by decide) rfl

/-! ## C3 — a failed ledger write fails the submission -/

/-- C3: when validation passes but the local ledger write fails, the handler
answers the generic failure and neither rendering, nor upload, nor the
mirror insert is attempted; the ledger file is left as it was. -/
theorem submit_fails_when_ledger_write_fails (w : World) (file : FileState)
    (raw : RawSubmission) (hv : validateSubmitRequest raw = [])
    (hw : w.writeOk = false) :
    (handleSubmit w file raw).response = SubmitResponse.serverError ∧
    (handleSubmit w file raw).renderAttempted = false ∧
    (handleSubmit w file raw).uploadAttempted = false ∧
    (handleSubmit w file raw).mirrorAttempted = false ∧
    (handleSubmit w file raw).mirrorRow = none ∧
    (handleSubmit w file raw).file = file := by
  rw [handleSubmit_writeFail w file raw hv hw]
  exact ⟨rfl, rfl, rfl, rfl, rfl, rfl⟩

/-- C3 evaluated on a failed-write run. -/
theorem submit_fails_when_ledger_write_fails_witness :
    (handleSubmit { sampleWorld with writeOk := false } FileState.missing
        sampleSubmission).response = SubmitResponse.serverError ∧
    (handleSubmit { sampleWorld with writeOk := false } FileState.missing
        sampleSubmission).renderAttempted = false ∧
    (handleSubmit { sampleWorld with writeOk := false } FileState.missing
        sampleSubmission).uploadAttempted = false ∧
    (handleSubmit { sampleWorld with writeOk := false } FileState.missing
        sampleSubmission).mirrorAttempted = false ∧
    (handleSubmit { sampleWorld with writeOk := false } FileState.missing
        sampleSubmission).mirrorRow = none ∧
    (handleSubmit { sampleWorld with writeOk := false } FileState.missing
        sampleSubmission).file = FileState.missing := by
  have h := submit_fails_when_ledger_write_fails { sampleWorld with writeOk := false }
    FileState.missing sampleSubmission (by decide) rfl
  exact h

/-! ## C5 — id uniqueness in the ledger -/

/-- C5 is right about the intended invariant but the code violates it:
`id` is `Date.now().toString()`, so two submissions processed in the same
millisecond produce two distinct ledger records with the same id. -/
theorem duplicate_ids_same_millisecond :
    (readRequests (handleSubmit sampleWorld
        (handleSubmit sampleWorld FileState.missing sampleSubmission).file
        sampleSubmissionB).file).map DesignRequest.id =
      ["1700000000000", "1700000000000"] ∧
    (readRequests (handleSubmit sampleWorld
        (handleSubmit sampleWorld FileState.missing sampleSubmission).file
        sampleSubmissionB).file).length = 2 ∧
    (readRequests (handleSubmit sampleWorld
        (handleSubmit sampleWorld FileState.missing sampleSubmission).file
        sampleSubmissionB).file).get? 0 ≠
      (readRequests (handleSubmit sampleWorld
        (handleSubmit sampleWorld FileState.missing sampleSubmission).file
        sampleSubmissionB).file).get? 1 := by
  decide

/-! ## C6 — ledger round-trip in insertion order -/

/-- C6: appending a record to the local ledger the way the handler does
(read, push, write) and reading the ledger back returns the prior records
followed by the new one, every field preserved: insertion order, full
round-trip. -/
theorem ledger_append_roundtrip (file : FileState) (r : DesignRequest) :
    readRequests (writeRequests (readRequests file ++ [r])) =
      readRequests file ++ [r] :=
  readRequests_writeRequests (readRequests file ++ [r])

/-! ## C10 — unreadable ledger reads as empty and is overwritten -/

/-- C10: whenever the ledger file is missing, unreadable or holds invalid
JSON, `readRequests` returns `[]` instead of an error; a validated
submission processed in that state therefore rewrites the file with only the
new record, silently discarding whatever was stored before. -/
theorem unreadable_ledger_returns_empty (w : World) (file : FileState)
    (raw : RawSubmission) (hfile : file.isParsed = false) :
    readRequests file = [] ∧
    (validateSubmitRequest raw = [] → w.writeOk = true →
      readRequests (handleSubmit w file raw).file =
        [buildRequest w (applyValidatorSanitizers raw)]) := by
  have hread : readRequests file = [] := by
    cases file with
    | missing => rfl
    | unreadable => rfl
    | corrupt raw' => rfl
    | parsed j => simp [FileState.isParsed] at hfile
  refine ⟨hread, fun hv hw => ?_⟩
  rw [handleSubmit_ok w file raw hv hw, readRequests_writeRequests, hread]
  rfl

/-- C10 evaluated on a ledger file holding invalid JSON. -/
theorem unreadable_ledger_returns_empty_witness :
    readRequests (FileState.corrupt "not valid json at all") = [] ∧
    readRequests (handleSubmit sampleWorld (FileState.corrupt "not valid json at all")
        sampleSubmission).file =
      [buildRequest sampleWorld (applyValidatorSanitizers sampleSubmission)] := by
  have h := unreadable_ledger_returns_empty sampleWorld
    (FileState.corrupt "not valid json at all") sampleSubmission rfl
  exact ⟨h.1, h.2 (by decide) rfl⟩

/-! ## C7 — designDescription length boundaries -/

theorem dropWhile_eq_self_of_none (p : Char → Bool) (l : List Char)
    (h : ∀ c ∈ l, p c = false) : l.dropWhile p = l := by
  cases l with
  | nil => rfl
  | cons a rest =>
      exact List.dropWhile_cons_of_neg (by simp [h a (List.mem_cons_self _ _)])

theorem jsTrim_of_no_ws (l : List Char)
    (h : ∀ c ∈ l, isJsWhitespace c = false) : jsTrim ⟨l⟩ = ⟨l⟩ := by
  unfold jsTrim
  have hd : (String.mk l).data = l := rfl
  rw [hd, dropWhile_eq_self_of_none _ _ h,
    dropWhile_eq_self_of_none _ _ (fun c hc => h c (List.mem_reverse.mp hc)),
    List.reverse_reverse]

/-- C7: with every other field passing its rule, a `designDescription` of
trimmed length 9 is rejected with exactly the description violation, trimmed
lengths 10 and 5000 pass validation, and trimmed length 5001 is rejected. -/
theorem designDescription_boundaries (raw : RawSubmission)
    (d9 d10 d5000 d5001 : String)
    (hothers : validateOtherFields raw = [])
    (h9 : (jsTrim d9).data.length = 9)
    (h10 : (jsTrim d10).data.length = 10)
    (h5000 : (jsTrim d5000).data.length = 5000)
    (h5001 : (jsTrim d5001).data.length = 5001) :
    validateSubmitRequest { raw with designDescription := d9 } =
      ["Description must be between 10 and 5000 characters"] ∧
    validateSubmitRequest { raw with designDescription := d10 } = [] ∧
    validateSubmitRequest { raw with designDescription := d5000 } = [] ∧
    validateSubmitRequest { raw with designDescription := d5001 } =
      ["Description must be between 10 and 5000 characters"] := by
  simp only [validateOtherFields, List.append_eq_nil, and_assoc] at hothers
  obtain ⟨h1, h2, h3, h4, h5, h6, h7, h8, hA, hB⟩ := hothers
  refine ⟨?_, ?_, ?_, ?_⟩ <;>
    simp [validateSubmitRequest, h1, h2, h3, h4, h5, h6, h7, h8, hA, hB,
      vDesignDescription, h9, h10, h5000, h5001]

/-- C7 evaluated at concrete strings of trimmed lengths 9, 10, 5000 and
5001. -/
theorem designDescription_boundaries_witness :
    validateSubmitRequest { sampleSubmission with designDescription := "123456789" } =
      ["Description must be between 10 and 5000 characters"] ∧
    validateSubmitRequest { sampleSubmission with designDescription := "1234567890" } = [] ∧
    validateSubmitRequest
        { sampleSubmission with designDescription := String.mk (List.replicate 5000 'a') } = [] ∧
    validateSubmitRequest
        { sampleSubmission with designDescription := String.mk (List.replicate 5001 'a') } =
      ["Description must be between 10 and 5000 characters"] := by
  have hrep : ∀ n : Nat, (jsTrim (String.mk (List.replicate n 'a'))).data.length = n := by
    intro n
    rw [jsTrim_of_no_ws (List.replicate n 'a')
      (fun c hc => by rw [(List.mem_replicate.mp hc).2]; decide)]
    simp
  exact designDescription_boundaries sampleSubmission "123456789" "1234567890"
    (String.mk (List.replicate 5000 'a')) (String.mk (List.replicate 5001 'a'))
    (by decide) (by decide) (by decide) (hrep 5000) (hrep 5001)

/-! ## C8 — the Design Preferences section -/

/-- A record whose `colorPreferences` consists of a single control
character: non-empty, yet the sanitized value is empty. -/
def controlPrefsRecord : DesignRequest :=
  { id := "1",
    clientName := "A",
    email := "a@b.c",
    phoneNumber := "",
    projectType := "website",
    timeline := "asap",
    budget := "200-500",
    designDescription := "ten chars!",
    referenceWebsites := "",
    colorPreferences := "\x01",
    stylePreferences := "",
    keyFeatures := "",
    status := "pending_review",
    pdfUrl := none,
    createdAt := "t" }

/-- C8 as frozen is false on the code: the renderer tests the *sanitized*
preference strings, so a record with non-empty `colorPreferences` made of
control characters only (and empty `stylePreferences`) renders with no
Design Preferences section at all. -/
theorem prefs_section_counterexample :
    controlPrefsRecord.colorPreferences ≠ "" ∧
    controlPrefsRecord.stylePreferences = "" ∧
    "Design Preferences" ∉ generatePDFLines id controlPrefsRecord := by
  decide

/-- C8 amended: when both preference fields are empty the rendered document
omits the Design Preferences block entirely; when `stylePreferences` is
empty and `colorPreferences` survives PDF sanitization non-empty, the block
appears containing exactly the section header and the color-preferences
line. -/
theorem prefs_section_amended (locale : String → String) (r : DesignRequest) :
    (r.colorPreferences = "" → r.stylePreferences = "" →
      generatePDFLines locale r = pdfHeadLines locale r ++ pdfTailLines r) ∧
    (sanitizeForPDF r.colorPreferences ≠ "" → r.stylePreferences = "" →
      generatePDFLines locale r =
        pdfHeadLines locale r ++
          ["Design Preferences",
           "Color Preferences: " ++ sanitizeForPDF r.colorPreferences] ++
          pdfTailLines r) := by
  have h0 : sanitizeForPDF "" = "" := rfl
  constructor
  · intro hc hs
    unfold generatePDFLines pdfPrefsLines
    rw [hc, hs, h0]
    simp
  · intro hc hs
    unfold generatePDFLines pdfPrefsLines
    rw [hs, h0]
    simp [hc]

/-- C8 amended, evaluated on a record with empty preferences and on one with
only color preferences. -/
theorem prefs_section_amended_witness :
    generatePDFLines id { controlPrefsRecord with colorPreferences := "" } =
      pdfHeadLines id { controlPrefsRecord with colorPreferences := "" } ++
        pdfTailLines { controlPrefsRecord with colorPreferences := "" } ∧
    generatePDFLines id { controlPrefsRecord with colorPreferences := "navy blue" } =
      pdfHeadLines id { controlPrefsRecord with colorPreferences := "navy blue" } ++
        ["Design Preferences",
         "Color Preferences: " ++
           sanitizeForPDF ({ controlPrefsRecord with colorPreferences := "navy blue" }).colorPreferences] ++
        pdfTailLines { controlPrefsRecord with colorPreferences := "navy blue" } :=
  ⟨(prefs_section_amended id { controlPrefsRecord with colorPreferences := "" }).1 rfl rfl,
   (prefs_section_amended id { controlPrefsRecord with colorPreferences := "navy blue" }).2
     (by decide) rfl⟩

end CerneyDesigns
